import Mathlib

/-!
Formal model of the `build.py` build helper.

The script has three stages, modelled here as pure functions:

1. Module-level platform dispatch (`match sys.platform`): modelled by
   `resolvePlatformNames`, which maps a platform identifier string to the
   pair (built-artifact filename, published-artifact filename), or fails
   with the exception message of the wildcard case.

2. `subprocess.run(['cargo', 'build', '--release'])`: modelled by a
   `CargoBehavior` in the environment, giving the child's exit status and
   the files it writes to the filesystem as a side effect.  The script
   reads only the exit status (`cargo.returncode`) from the child.

3. `shutil.copy(os.path.join('target', 'release', LIB_SOURCE_NAME),
   os.path.join('lua', LIB_TARGET_NAME))`: modelled by `shutilCopy` over
   an explicit filesystem (a list of path/content pairs); the copy fails
   when the source file is absent, or when the host forbids it
   (permissions, missing destination directory), modelled by the `copyOk`
   flag of the environment.

An uncaught Python exception terminates the interpreter with exit
status 1; `RunResult.exitCode` encodes exactly that.  The event trace of
a run records every process invocation and every attempted file copy, so
that ordering and absence-of-side-effect properties can be stated.
-/

namespace Wikiplugin

/-- `LIBRARY_NAME = 'wikiplugin_internal'` from build.py. -/
def LIBRARY_NAME : String := "wikiplugin_internal"

/-- The module-level `match sys.platform` of build.py: returns the pair
`(LIB_SOURCE_NAME, LIB_TARGET_NAME)` for the three recognized platform
identifiers, and fails with the wildcard-case exception message
`f'unsupported platform {sys.platform}'` otherwise. -/
def resolvePlatformNames (platform : String) : Except String (String × String) :=
  if platform = "linux" then
    Except.ok ("lib" ++ LIBRARY_NAME ++ ".so", LIBRARY_NAME ++ ".so")
  else if platform = "darwin" then
    Except.ok ("lib" ++ LIBRARY_NAME ++ ".dylib", LIBRARY_NAME ++ ".so")
  else if platform = "win32" then
    Except.ok (LIBRARY_NAME ++ ".dll", LIBRARY_NAME ++ ".dll")
  else
    Except.error ("unsupported platform " ++ platform)

/-- A filesystem: an association of paths to byte contents; the head of
the list is the most recent write to a path. -/
abbrev FS := List (String × List Nat)

/-- Read the current content of a path, if the path exists. -/
def fsLookup : FS → String → Option (List Nat)
  | [], _ => none
  | (p, c) :: rest, path => if p = path then some c else fsLookup rest path

/-- Write (create or overwrite) a path with the given content. -/
def fsWrite (fs : FS) (path : String) (content : List Nat) : FS :=
  (path, content) :: fs

/-- Apply a list of writes to the filesystem, in order. -/
def applyWrites (fs : FS) (ws : List (String × List Nat)) : FS :=
  ws.foldl (fun acc pc => fsWrite acc pc.1 pc.2) fs

/-- Model of `shutil.copy src dst`: reads the source file and writes its
content to the destination.  Fails when the source does not exist
(Python raises `FileNotFoundError`) or when the host environment forbids
the copy (permissions, missing destination directory, disk space),
captured by the `hostOk` flag. -/
def shutilCopy (fs : FS) (src dst : String) (hostOk : Bool) : Except String FS :=
  match fsLookup fs src with
  | none => Except.error ("FileNotFoundError: " ++ src)
  | some content =>
      if hostOk then Except.ok (fsWrite fs dst content)
      else Except.error ("copy failed: " ++ dst)

/-- Behavior of the external `cargo` child process: its exit status, and
the files it writes to the filesystem while running. -/
structure CargoBehavior where
  exitCode : Nat
  writes : List (String × List Nat)
deriving Repr

/-- The host environment of one run of the script: the value of
`sys.platform`, the behavior of the `cargo` child process, and whether
the host permits the final copy. -/
structure Env where
  platform : String
  cargo : CargoBehavior
  copyOk : Bool
deriving Repr

/-- Externally visible actions of the script, in order of occurrence:
child-process invocations and attempted file copies. -/
inductive Event where
  | runProcess (cmd : List String)
  | fileCopy (src dst : String)
deriving DecidableEq, Repr

/-- Whether an event is a child-process invocation. -/
def Event.isRunProcess : Event → Bool
  | Event.runProcess _ => true
  | _ => false

/-- Whether an event is an attempted file copy. -/
def Event.isFileCopy : Event → Bool
  | Event.fileCopy _ _ => true
  | _ => false

/-- Outcome of one run of the script: the uncaught exception (if any),
the trace of externally visible actions, and the final filesystem. -/
structure RunResult where
  raised : Option String
  trace : List Event
  fs : FS
deriving DecidableEq, Repr

/-- The process exit status: a Python script that finishes normally
exits 0; an uncaught exception makes the interpreter exit 1. -/
def RunResult.exitCode (r : RunResult) : Nat :=
  match r.raised with
  | some _ => 1
  | none => 0

/-- The argument vector of `subprocess.run` in `main`. -/
def cargoCommand : List String := ["cargo", "build", "--release"]

/-- One run of build.py: platform dispatch at module load (an unmatched
platform raises before `main` runs and before any side effect), then
`main`: run `cargo build --release`, check its exit status, and copy
`target/release/LIB_SOURCE_NAME` to `lua/LIB_TARGET_NAME`. -/
def runScript (env : Env) (fs : FS) : RunResult :=
  match resolvePlatformNames env.platform with
  | Except.error msg => { raised := some msg, trace := [], fs := fs }
  | Except.ok names =>
      let fs1 := applyWrites fs env.cargo.writes
      if env.cargo.exitCode ≠ 0 then
        { raised := some "cargo build failed"
          trace := [Event.runProcess cargoCommand]
          fs := fs1 }
      else
        let src := "target/release/" ++ names.1
        let dst := "lua/" ++ names.2
        match shutilCopy fs1 src dst env.copyOk with
        | Except.error msg =>
            { raised := some msg
              trace := [Event.runProcess cargoCommand, Event.fileCopy src dst]
              fs := fs1 }
        | Except.ok fs2 =>
            { raised := none
              trace := [Event.runProcess cargoCommand, Event.fileCopy src dst]
              fs := fs2 }

/-- A run in which the platform is linux and cargo fails with exit
status 2, writing nothing. -/
def envCargoFails : Env :=
  { platform := "linux", cargo := { exitCode := 2, writes := [] }, copyOk := true }

/-- A run on the unrecognized platform identifier `freebsd`. -/
def envFreebsd : Env :=
  { platform := "freebsd", cargo := { exitCode := 0, writes := [] }, copyOk := true }

/-- A run in which the platform is linux and cargo fails with exit
status 1, writing nothing. -/
def envBuildFailed : Env :=
  { platform := "linux", cargo := { exitCode := 1, writes := [] }, copyOk := true }

/-- A run in which the platform is linux, cargo succeeds and writes the
expected artifact (bytes `[7, 7, 7]`), and the host permits the copy. -/
def envLinuxOk : Env :=
  { platform := "linux"
    cargo := { exitCode := 0
               writes := [("target/release/libwikiplugin_internal.so", [7, 7, 7])] }
    copyOk := true }

/-- A run in which the platform is linux and cargo exits 0 but does not
write the expected artifact. -/
def envMissingArtifact : Env :=
  { platform := "linux", cargo := { exitCode := 0, writes := [] }, copyOk := true }

/-- Every run result carries exit status 0 or 1 (Python's two outcomes:
normal termination, or death by uncaught exception). -/
theorem RunResult.exitCode_eq_zero_or_one (r : RunResult) :
    r.exitCode = 0 ∨ r.exitCode = 1 := by
  unfold RunResult.exitCode
  cases r.raised <;> simp

/-- C1: for each of the three supported platform identifiers
(`linux`, `darwin`, `win32`), platform-name resolution returns exactly
the pair of the table: linux maps to
(`libwikiplugin_internal.so`, `wikiplugin_internal.so`), darwin to
(`libwikiplugin_internal.dylib`, `wikiplugin_internal.so`), and win32 to
(`wikiplugin_internal.dll`, `wikiplugin_internal.dll`). -/
theorem resolvePlatformNames_table :
    resolvePlatformNames "linux" =
      Except.ok ("libwikiplugin_internal.so", "wikiplugin_internal.so") ∧
    resolvePlatformNames "darwin" =
      Except.ok ("libwikiplugin_internal.dylib", "wikiplugin_internal.so") ∧
    resolvePlatformNames "win32" =
      Except.ok ("wikiplugin_internal.dll", "wikiplugin_internal.dll") := by
  refine ⟨rfl, rfl, rfl⟩

/-- C2: for every platform identifier outside {linux, darwin, win32},
platform-name resolution fails with the unsupported-platform error, the
run raises it before `main` runs, its event trace is empty (no process
invocation, no copy attempt), and the filesystem is untouched. -/
theorem unsupported_platform_aborts_without_side_effects (env : Env) (fs : FS)
    (h1 : env.platform ≠ "linux") (h2 : env.platform ≠ "darwin")
    (h3 : env.platform ≠ "win32") :
    (∃ msg, resolvePlatformNames env.platform = Except.error msg ∧
      (runScript env fs).raised = some msg) ∧
    (runScript env fs).trace = [] ∧
    (runScript env fs).fs = fs := by
  have hres : resolvePlatformNames env.platform =
      Except.error ("unsupported platform " ++ env.platform) := by
    simp [resolvePlatformNames, h1, h2, h3]
  refine ⟨⟨"unsupported platform " ++ env.platform, hres, ?_⟩, ?_, ?_⟩ <;>
    simp [runScript, hres]

/-- Witness for C2 at the concrete unsupported identifier `freebsd`. -/
theorem unsupported_platform_aborts_without_side_effects_witness :
    (∃ msg, resolvePlatformNames envFreebsd.platform = Except.error msg ∧
      (runScript envFreebsd []).raised = some msg) ∧
    (runScript envFreebsd []).trace = [] ∧
    (runScript envFreebsd []).fs = [] :=
  unsupported_platform_aborts_without_side_effects envFreebsd []
    (by decide) (by decide) (by decide)

/-- C8: when the unsupported-platform error is raised for an
unrecognized identifier, its message names that identifier: the message
is exactly `unsupported platform ` followed by the identifier. -/
theorem unsupported_platform_message_names_identifier (p : String)
    (h1 : p ≠ "linux") (h2 : p ≠ "darwin") (h3 : p ≠ "win32") :
    resolvePlatformNames p = Except.error ("unsupported platform " ++ p) := by
  simp [resolvePlatformNames, h1, h2, h3]

/-- Witness for C8 at the concrete unsupported identifier `freebsd`. -/
theorem unsupported_platform_message_names_identifier_witness :
    resolvePlatformNames "freebsd" = Except.error ("unsupported platform " ++ "freebsd") :=
  unsupported_platform_message_names_identifier "freebsd"
    (by decide) (by decide) (by decide)

/-- C3: in every run whose build subprocess exits non-zero, the publish
step is never invoked: the exception `cargo build failed` is raised, the
trace holds no file-copy event, and the program writes no file itself
(the filesystem is exactly what the build tool left behind, so nothing
appears at the publish path). -/
theorem build_failure_skips_publish (env : Env) (fs : FS) (names : String × String)
    (hres : resolvePlatformNames env.platform = Except.ok names)
    (hfail : env.cargo.exitCode ≠ 0) :
    (runScript env fs).raised = some "cargo build failed" ∧
    (runScript env fs).trace.filter Event.isFileCopy = [] ∧
    (runScript env fs).fs = applyWrites fs env.cargo.writes := by
  refine ⟨?_, ?_, ?_⟩ <;>
    simp [runScript, hres, hfail, Event.isFileCopy, List.filter]

/-- Witness for C3: linux platform, cargo exits 1 writing nothing. -/
theorem build_failure_skips_publish_witness :
    (runScript envBuildFailed []).raised = some "cargo build failed" ∧
    (runScript envBuildFailed []).trace.filter Event.isFileCopy = [] ∧
    (runScript envBuildFailed []).fs = applyWrites [] envBuildFailed.cargo.writes :=
  build_failure_skips_publish envBuildFailed []
    ("libwikiplugin_internal.so", "wikiplugin_internal.so") (by rfl) (by decide)

/-- C5: whenever the platform resolves (so `main` runs), the script
invokes exactly one child process, namely `cargo build --release`; the
model consumes only that child's exit status and filesystem effect, as
the script reads only `returncode` from the `subprocess.run` result. -/
theorem build_tool_invoked_exactly_once (env : Env) (fs : FS) (names : String × String)
    (hres : resolvePlatformNames env.platform = Except.ok names) :
    (runScript env fs).trace.filter Event.isRunProcess =
      [Event.runProcess ["cargo", "build", "--release"]] := by
  by_cases hc : env.cargo.exitCode = 0
  · rcases hs : shutilCopy (applyWrites fs env.cargo.writes)
        ("target/release/" ++ names.1) ("lua/" ++ names.2) env.copyOk with msg | fs2 <;>
      simp [runScript, hres, hc, hs, Event.isRunProcess, cargoCommand, List.filter]
  · simp [runScript, hres, hc, Event.isRunProcess, cargoCommand, List.filter]

/-- Witness for C5: the successful linux run invokes exactly one child
process, `cargo build --release`. -/
theorem build_tool_invoked_exactly_once_witness :
    (runScript envLinuxOk []).trace.filter Event.isRunProcess =
      [Event.runProcess ["cargo", "build", "--release"]] :=
  build_tool_invoked_exactly_once envLinuxOk []
    ("libwikiplugin_internal.so", "wikiplugin_internal.so") (by rfl)

/-- C6: when the build subprocess exits zero, the publish step attempts
exactly one copy, from `target/release/` ++ the source artifact name to
`lua/` ++ the target artifact name, and no other source or destination
path; when the copy succeeds, the destination receives exactly the bytes
of the source file. -/
theorem publish_copies_expected_paths (env : Env) (fs : FS) (names : String × String)
    (hres : resolvePlatformNames env.platform = Except.ok names)
    (hc : env.cargo.exitCode = 0) :
    (runScript env fs).trace.filter Event.isFileCopy =
      [Event.fileCopy ("target/release/" ++ names.1) ("lua/" ++ names.2)] ∧
    (∀ c, env.copyOk = true →
      fsLookup (applyWrites fs env.cargo.writes) ("target/release/" ++ names.1) = some c →
      (runScript env fs).fs =
        fsWrite (applyWrites fs env.cargo.writes) ("lua/" ++ names.2) c) := by
  constructor
  · rcases hs : shutilCopy (applyWrites fs env.cargo.writes)
        ("target/release/" ++ names.1) ("lua/" ++ names.2) env.copyOk with msg | fs2 <;>
      simp [runScript, hres, hc, hs, Event.isFileCopy, List.filter]
  · intro c hok hsrc
    have hs : shutilCopy (applyWrites fs env.cargo.writes)
        ("target/release/" ++ names.1) ("lua/" ++ names.2) env.copyOk =
        Except.ok (fsWrite (applyWrites fs env.cargo.writes) ("lua/" ++ names.2) c) := by
      simp [shutilCopy, hsrc, hok]
    simp [runScript, hres, hc, hs]

/-- Witness for C6: the successful linux run copies
`target/release/libwikiplugin_internal.so` to
`lua/wikiplugin_internal.so` and nothing else. -/
theorem publish_copies_expected_paths_witness :
    (runScript envLinuxOk []).trace.filter Event.isFileCopy =
      [Event.fileCopy ("target/release/" ++ "libwikiplugin_internal.so")
        ("lua/" ++ "wikiplugin_internal.so")] ∧
    (∀ c, envLinuxOk.copyOk = true →
      fsLookup (applyWrites [] envLinuxOk.cargo.writes)
        ("target/release/" ++ "libwikiplugin_internal.so") = some c →
      (runScript envLinuxOk []).fs =
        fsWrite (applyWrites [] envLinuxOk.cargo.writes)
          ("lua/" ++ "wikiplugin_internal.so") c) :=
  publish_copies_expected_paths envLinuxOk []
    ("libwikiplugin_internal.so", "wikiplugin_internal.so") (by rfl) (by decide)

/-- C7: when the build subprocess exits zero but the expected output
file `target/release/` ++ source name is absent — or the host otherwise
prevents the copy — the run raises an exception (the publish failure),
terminates with a non-zero exit status, and the filesystem stays exactly
as the build tool left it, so any build artifact remains in its
build-output location. -/
theorem publish_failure_is_fatal (env : Env) (fs : FS) (names : String × String)
    (hres : resolvePlatformNames env.platform = Except.ok names)
    (hc : env.cargo.exitCode = 0)
    (hbad : fsLookup (applyWrites fs env.cargo.writes) ("target/release/" ++ names.1)
        = none ∨ env.copyOk = false) :
    (runScript env fs).raised.isSome = true ∧
    (runScript env fs).exitCode = 1 ∧
    (runScript env fs).fs = applyWrites fs env.cargo.writes := by
  have hs : ∃ msg, shutilCopy (applyWrites fs env.cargo.writes)
      ("target/release/" ++ names.1) ("lua/" ++ names.2) env.copyOk =
      Except.error msg := by
    rcases hbad with habs | hno
    · exact ⟨"FileNotFoundError: " ++ ("target/release/" ++ names.1),
        by simp [shutilCopy, habs]⟩
    · rcases hsrc : fsLookup (applyWrites fs env.cargo.writes)
          ("target/release/" ++ names.1) with _ | c
      · exact ⟨"FileNotFoundError: " ++ ("target/release/" ++ names.1),
          by simp [shutilCopy, hsrc]⟩
      · exact ⟨"copy failed: " ++ ("lua/" ++ names.2),
          by simp [shutilCopy, hsrc, hno]⟩
  rcases hs with ⟨msg, hs⟩
  refine ⟨?_, ?_, ?_⟩ <;> simp [runScript, hres, hc, hs, RunResult.exitCode]

/-- Witness for C7: linux platform, cargo exits 0 without writing the
expected artifact; the run fails and leaves the filesystem unchanged. -/
theorem publish_failure_is_fatal_witness :
    (runScript envMissingArtifact []).raised.isSome = true ∧
    (runScript envMissingArtifact []).exitCode = 1 ∧
    (runScript envMissingArtifact []).fs = applyWrites [] envMissingArtifact.cargo.writes :=
  publish_failure_is_fatal envMissingArtifact []
    ("libwikiplugin_internal.so", "wikiplugin_internal.so") (by rfl) (by decide)
    (Or.inl (by decide))

/-- C10: platform resolution happens at script load time, before `main`;
hence every run whose trace is non-empty (i.e. that performed any action
of `main`, in particular the build step) has a supported platform
identifier, both artifact filenames are defined, and the
unsupported-platform branch was not taken. -/
theorem build_step_implies_supported_platform (env : Env) (fs : FS)
    (h : (runScript env fs).trace ≠ []) :
    (env.platform = "linux" ∨ env.platform = "darwin" ∨ env.platform = "win32") ∧
    ∃ names, resolvePlatformNames env.platform = Except.ok names := by
  by_cases h1 : env.platform = "linux"
  · exact ⟨Or.inl h1, ("lib" ++ LIBRARY_NAME ++ ".so", LIBRARY_NAME ++ ".so"),
      by simp [resolvePlatformNames, h1]⟩
  by_cases h2 : env.platform = "darwin"
  · exact ⟨Or.inr (Or.inl h2), ("lib" ++ LIBRARY_NAME ++ ".dylib", LIBRARY_NAME ++ ".so"),
      by simp [resolvePlatformNames, h1, h2]⟩
  by_cases h3 : env.platform = "win32"
  · exact ⟨Or.inr (Or.inr h3), (LIBRARY_NAME ++ ".dll", LIBRARY_NAME ++ ".dll"),
      by simp [resolvePlatformNames, h1, h2, h3]⟩
  exfalso
  apply h
  have hres : resolvePlatformNames env.platform =
      Except.error ("unsupported platform " ++ env.platform) := by
    simp [resolvePlatformNames, h1, h2, h3]
  simp [runScript, hres]

/-- Witness for C10: the successful linux run has a non-empty trace, and
the theorem yields a supported platform with resolved names. -/
theorem build_step_implies_supported_platform_witness :
    (envLinuxOk.platform = "linux" ∨ envLinuxOk.platform = "darwin" ∨
      envLinuxOk.platform = "win32") ∧
    ∃ names, resolvePlatformNames envLinuxOk.platform = Except.ok names :=
  build_step_implies_supported_platform envLinuxOk [] (by decide)

/-- C4 counterexample: platform linux, cargo fails with exit status 2.
The build subprocess fails, yet the program's exit status is 1 (the
interpreter's uncaught-exception status), not the status 2 the build
subprocess produced — refuting the claim that the process exit status is
propagated from the failing build subprocess. -/
theorem exit_status_not_propagated_from_build :
    envCargoFails.cargo.exitCode = 2 ∧
    (runScript envCargoFails []).raised.isSome = true ∧
    (runScript envCargoFails []).exitCode = 1 ∧
    ¬ (runScript envCargoFails []).exitCode = envCargoFails.cargo.exitCode := by
  refine ⟨rfl, rfl, rfl, by decide⟩

/-- C4 amended: the program's exit code is 0 exactly when every step
succeeds (platform resolved, build subprocess exited zero, and the copy
completed); on any failure the process terminates with the non-zero exit
status 1 (the interpreter's uncaught-exception status), regardless of
the status the failing step produced. -/
theorem exit_code_zero_iff_all_steps_succeed (env : Env) (fs : FS) :
    ((runScript env fs).exitCode = 0 ↔
      ∃ names fs2, resolvePlatformNames env.platform = Except.ok names ∧
        env.cargo.exitCode = 0 ∧
        shutilCopy (applyWrites fs env.cargo.writes) ("target/release/" ++ names.1)
          ("lua/" ++ names.2) env.copyOk = Except.ok fs2) ∧
    ((runScript env fs).exitCode ≠ 0 → (runScript env fs).exitCode = 1) := by
  constructor
  · rcases hres : resolvePlatformNames env.platform with msg | names
    · simp [runScript, hres, RunResult.exitCode]
    · by_cases hc : env.cargo.exitCode = 0
      · rcases hs : shutilCopy (applyWrites fs env.cargo.writes)
            ("target/release/" ++ names.1) ("lua/" ++ names.2) env.copyOk with m | fs2
        · simp [runScript, hres, hc, hs, RunResult.exitCode]
        · constructor
          · intro h0
            exact ⟨names, fs2, rfl, hc, hs⟩
          · intro h0
            simp [runScript, hres, hc, hs, RunResult.exitCode]
      · simp [runScript, hres, hc, RunResult.exitCode]
  · intro hne
    rcases RunResult.exitCode_eq_zero_or_one (runScript env fs) with h0 | h1
    · exact absurd h0 hne
    · exact h1

/-- Witness for the amended C4 at the successful linux run: exit code 0
and the success conditions hold. -/
theorem exit_code_zero_iff_all_steps_succeed_witness :
    (((runScript envLinuxOk []).exitCode = 0 ↔
      ∃ names fs2, resolvePlatformNames envLinuxOk.platform = Except.ok names ∧
        envLinuxOk.cargo.exitCode = 0 ∧
        shutilCopy (applyWrites [] envLinuxOk.cargo.writes)
          ("target/release/" ++ names.1) ("lua/" ++ names.2) envLinuxOk.copyOk =
          Except.ok fs2) ∧
    ((runScript envLinuxOk []).exitCode ≠ 0 → (runScript envLinuxOk []).exitCode = 1)) :=
  exit_code_zero_iff_all_steps_succeed envLinuxOk []

/-- C9: end-to-end on linux — given a build tool that exits zero and
writes `target/release/libwikiplugin_internal.so` with some byte
content, the run exits 0, raises nothing, and produces
`lua/wikiplugin_internal.so` with byte content identical to the built
artifact. -/
theorem end_to_end_linux (content : List Nat) :
    (runScript { platform := "linux"
                 cargo := { exitCode := 0
                            writes := [("target/release/libwikiplugin_internal.so", content)] }
                 copyOk := true } []).exitCode = 0 ∧
    (runScript { platform := "linux"
                 cargo := { exitCode := 0
                            writes := [("target/release/libwikiplugin_internal.so", content)] }
                 copyOk := true } []).raised = none ∧
    fsLookup (runScript { platform := "linux"
                          cargo := { exitCode := 0
                                     writes := [("target/release/libwikiplugin_internal.so", content)] }
                          copyOk := true } []).fs "lua/wikiplugin_internal.so" =
      some content := by
    refine ⟨rfl, rfl, rfl⟩

/-- Witness for C9 at the concrete artifact content `[7, 7, 7]`. -/
theorem end_to_end_linux_witness :
    (runScript { platform := "linux"
                 cargo := { exitCode := 0
                            writes := [("target/release/libwikiplugin_internal.so", [7, 7, 7])] }
                 copyOk := true } []).exitCode = 0 ∧
    (runScript { platform := "linux"
                 cargo := { exitCode := 0
                            writes := [("target/release/libwikiplugin_internal.so", [7, 7, 7])] }
                 copyOk := true } []).raised = none ∧
    fsLookup (runScript { platform := "linux"
                          cargo := { exitCode := 0
                                     writes := [("target/release/libwikiplugin_internal.so", [7, 7, 7])] }
                          copyOk := true } []).fs "lua/wikiplugin_internal.so" =
      some [7, 7, 7] :=
  end_to_end_linux [7, 7, 7]

end Wikiplugin
